import Mathlib

/-!
Verification of the OAuth authentication broker and token lifecycle manager
of this repository (backend/src/pdns/security/token_manager.py,
backend/src/pdns/api/oauth_service.py, backend/src/pdns/api/oauth/wechat_service.py,
backend/src/pdns/api/oauth/qq_service.py, all embedded in the design document).

The Python classes are shallowly embedded: dictionaries become association
lists, JWT encode/decode becomes a constructor carrying the payload and the
signing key (a signature verifies exactly when the keys agree, which is what
HS256 signing gives for opaque payloads), `datetime.utcnow()` becomes an
explicit integer clock parameter measured in seconds, and `uuid4` freshness
becomes a monotone counter in the manager state. Python exceptions that a
function catches are folded into its `Option`/`Except` result; an exception
that escapes (such as `KeyError` from `payload["jti"]`) is an `Except.error`.
-/

set_option autoImplicit false

namespace PDNS

universe u v

/-- Association-list lookup, the model of Python `d.get(k)` / `k in d`.
Python dictionaries built by the embedded code keep their keys unique, so
first-match lookup agrees with dictionary lookup. -/
def alookup {κ : Type u} {α : Type v} [DecidableEq κ] : List (κ × α) → κ → Option α
  | [], _ => none
  | (k, v) :: rest, k0 => if k = k0 then some v else alookup rest k0

/-- Model of Python dictionary assignment `d[k] = v`: overwrite the entry if
the key is present, otherwise append a new entry. -/
def dict_set {κ : Type u} {α : Type v} [DecidableEq κ] (l : List (κ × α)) (k : κ) (v : α) :
    List (κ × α) :=
  if (alookup l k).isSome then
    l.map (fun p => if p.1 = k then (k, v) else p)
  else
    l ++ [(k, v)]

/-- Model of Python `d.pop(k)` on the store side: remove every entry with key
`k` (the dictionaries in the embedded code have unique keys). -/
def dict_del {κ : Type u} {α : Type v} [DecidableEq κ] (l : List (κ × α)) (k : κ) :
    List (κ × α) :=
  l.filter (fun p => p.1 ≠ k)

@[simp] theorem alookup_nil {κ : Type u} {α : Type v} [DecidableEq κ] (k : κ) :
    alookup ([] : List (κ × α)) k = none := rfl

@[simp] theorem alookup_cons {κ : Type u} {α : Type v} [DecidableEq κ]
    (k k0 : κ) (v : α) (rest : List (κ × α)) :
    alookup ((k, v) :: rest) k0 = if k = k0 then some v else alookup rest k0 := rfl

theorem alookup_append {κ : Type u} {α : Type v} [DecidableEq κ]
    (l1 l2 : List (κ × α)) (k : κ) :
    alookup (l1 ++ l2) k =
      (match alookup l1 k with
       | some v => some v
       | none => alookup l2 k) := by
  induction l1 with
  | nil => simp [alookup]
  | cons p rest ih =>
    obtain ⟨k1, v1⟩ := p
    by_cases h : k1 = k <;> simp [alookup, h, ih]

theorem alookup_map_overwrite {κ : Type u} {α : Type v} [DecidableEq κ]
    (l : List (κ × α)) (k : κ) (v : α) :
    alookup (l.map (fun p => if p.1 = k then (k, v) else p)) k =
      if (alookup l k).isSome then some v else none := by
  induction l with
  | nil => rfl
  | cons p rest ih =>
    obtain ⟨k1, v1⟩ := p
    rw [List.map_cons]
    by_cases h : k1 = k
    · rw [if_pos h, alookup_cons, if_pos rfl, alookup_cons, if_pos h]
      rfl
    · rw [if_neg h, alookup_cons, if_neg h, ih, alookup_cons, if_neg h]

theorem alookup_map_overwrite_ne {κ : Type u} {α : Type v} [DecidableEq κ]
    (l : List (κ × α)) (k k0 : κ) (v : α) (h : k0 ≠ k) :
    alookup (l.map (fun p => if p.1 = k then (k, v) else p)) k0 = alookup l k0 := by
  induction l with
  | nil => rfl
  | cons p rest ih =>
    obtain ⟨k1, v1⟩ := p
    rw [List.map_cons]
    by_cases hk : k1 = k
    · rw [if_pos hk, alookup_cons, if_neg (Ne.symm h), alookup_cons, ih,
        if_neg (fun hh : k1 = k0 => h (hh ▸ hk))]
    · rw [if_neg hk, alookup_cons, alookup_cons, ih]

theorem alookup_dict_set_self {κ : Type u} {α : Type v} [DecidableEq κ]
    (l : List (κ × α)) (k : κ) (v : α) :
    alookup (dict_set l k v) k = some v := by
  unfold dict_set
  by_cases h : (alookup l k).isSome
  · rw [if_pos h, alookup_map_overwrite, if_pos h]
  · rw [if_neg h, alookup_append]
    have hnone : alookup l k = none := by
      cases hl : alookup l k with
      | none => rfl
      | some v0 => rw [hl] at h; simp at h
    rw [hnone]
    simp [alookup]

theorem alookup_dict_set_ne {κ : Type u} {α : Type v} [DecidableEq κ]
    (l : List (κ × α)) (k k0 : κ) (v : α) (h : k0 ≠ k) :
    alookup (dict_set l k v) k0 = alookup l k0 := by
  unfold dict_set
  by_cases hs : (alookup l k).isSome
  · rw [if_pos hs, alookup_map_overwrite_ne _ _ _ _ h]
  · rw [if_neg hs, alookup_append]
    cases hl : alookup l k0 with
    | none => simp [alookup, Ne.symm h]
    | some v0 => simp

theorem alookup_dict_del_self {κ : Type u} {α : Type v} [DecidableEq κ]
    (l : List (κ × α)) (k : κ) :
    alookup (dict_del l k) k = none := by
  induction l with
  | nil => rfl
  | cons p rest ih =>
    obtain ⟨k1, v1⟩ := p
    by_cases h : k1 = k
    · subst h
      simpa [dict_del, List.filter_cons] using ih
    · simpa [dict_del, List.filter_cons, alookup, h] using ih

theorem alookup_dict_del_ne {κ : Type u} {α : Type v} [DecidableEq κ]
    (l : List (κ × α)) (k k0 : κ) (h : k0 ≠ k) :
    alookup (dict_del l k) k0 = alookup l k0 := by
  induction l with
  | nil => rfl
  | cons p rest ih =>
    obtain ⟨k1, v1⟩ := p
    by_cases hk : k1 = k
    · subst hk
      have hne : ¬ (k1 = k0) := fun hh => h (hh ▸ rfl)
      simpa [dict_del, List.filter_cons, alookup, hne] using ih
    · by_cases hk0 : k1 = k0
      · subst hk0
        simp [dict_del, List.filter_cons, alookup, hk]
      · simpa [dict_del, List.filter_cons, alookup, hk, hk0] using ih

/-- JSON-style values, the model of the dictionaries the provider HTTP
responses decode to (`response.json()`). -/
inductive Json where
  | null
  | str (s : String)
  | num (n : Int)
  | bool (b : Bool)
  | arr (xs : List Json)
  | obj (fields : List (String × Json))

/-- Model of Python `data.get(k)` on a JSON object given as its field list. -/
def jget (d : List (String × Json)) (k : String) : Option Json :=
  alookup d k

/-- Model of the Python comparison `data.get("errcode") != 0` appearing in the
WeChat service guards: true unless the value is the JSON number `0`. -/
def errcode_nonzero : Json → Bool
  | .num 0 => false
  | _ => true

/-- Field mapping of WeChatOAuthService._get_user_info (wechat_service.py):
the returned user-info dictionary keeps the provider's own field names
(`openid`, `nickname`, `headimgurl`, …), each read with `data.get(...)`;
`privilege` defaults to the empty list. -/
def wechat_user_info_fields (data : List (String × Json)) : List (String × Json) :=
  [("openid", (jget data "openid").getD .null),
   ("nickname", (jget data "nickname").getD .null),
   ("sex", (jget data "sex").getD .null),
   ("province", (jget data "province").getD .null),
   ("city", (jget data "city").getD .null),
   ("country", (jget data "country").getD .null),
   ("headimgurl", (jget data "headimgurl").getD .null),
   ("privilege", (jget data "privilege").getD (.arr [])),
   ("unionid", (jget data "unionid").getD .null)]

/-- WeChatOAuthService._get_user_info, result-shaping step
(wechat_service.py): given the decoded JSON of the `sns/userinfo` response,
raise (`none`) when an `errcode` field is present and nonzero, otherwise build
the returned user-info dictionary via `wechat_user_info_fields`. The network
fetch itself is external I/O and is not modelled; this function is applied to
the response body it yields. -/
def wechat_get_user_info (data : List (String × Json)) :
    Option (List (String × Json)) :=
  match jget data "errcode" with
  | some v =>
    if errcode_nonzero v then none
    else some (wechat_user_info_fields data)
  | none => some (wechat_user_info_fields data)

/-- WeChatOAuthService.handle_callback, result-shaping step
(wechat_service.py): given the decoded token-endpoint response `token_data`
(already past the `errcode` guard) and the user-info dictionary, build the
returned dictionary. `token_data["openid"]` and `token_data["access_token"]`
are Python `[]` indexing, so a missing key raises `KeyError` (`none` here);
the other fields use `.get`, with `expires_in` defaulting to `7200` and the
rest to `None`. -/
def wechat_handle_callback_result (token_data : List (String × Json))
    (user_info : List (String × Json)) : Option (List (String × Json)) :=
  match jget token_data "openid", jget token_data "access_token" with
  | some openid, some access_token =>
    some [("provider", .str "wechat"),
          ("openid", openid),
          ("unionid", (jget token_data "unionid").getD .null),
          ("access_token", access_token),
          ("refresh_token", (jget token_data "refresh_token").getD .null),
          ("expires_in", (jget token_data "expires_in").getD (.num 7200)),
          ("user_info", .obj user_info)]
  | _, _ => none

/-- QQOAuthService.handle_callback, result-shaping step (qq_service.py):
given the parsed token-endpoint response `token_data` (already past the
`error` guard), the parsed `oauth2.0/me` response `openid_data`, and the
user-info dictionary, build the returned dictionary.
`openid_data["openid"]`, `openid_data["client_id"]` and
`token_data["access_token"]` are `[]` indexing (KeyError when missing, `none`
here); `refresh_token` and `expires_in` use `.get` with no default, so a
missing `expires_in` is carried as `None`. -/
def qq_handle_callback_result (token_data : List (String × Json))
    (openid_data : List (String × Json)) (user_info : List (String × Json)) :
    Option (List (String × Json)) :=
  match jget openid_data "openid", jget openid_data "client_id",
        jget token_data "access_token" with
  | some openid, some client_id, some access_token =>
    some [("provider", .str "qq"),
          ("openid", openid),
          ("client_id", client_id),
          ("access_token", access_token),
          ("refresh_token", (jget token_data "refresh_token").getD .null),
          ("expires_in", (jget token_data "expires_in").getD .null),
          ("user_info", .obj user_info)]
  | _, _, _ => none

/-- TokenConfig (token_manager.py). Lifetimes are in seconds
(`timedelta(hours=1)`, `timedelta(days=7)`); `REFRESH_TOKEN_ROTATION`
defaults to `True`. -/
structure TokenConfig where
  ACCESS_TOKEN_LIFETIME : Int := 3600
  REFRESH_TOKEN_LIFETIME : Int := 604800
  REFRESH_TOKEN_ROTATION : Bool := true
  ALGORITHM : String := "HS256"
  SECRET_KEY : String := "JWT_SECRET_KEY"
deriving DecidableEq

/-- Decoded JWT payload as built by TokenManager. `sub` and `type` are the
subject and the type discriminator; `exp` and `iat` are UTC instants in
seconds; `jti` is the unique token id (`uuid4`, modelled as a natural number),
`Option` because `blacklist_token` and `verify_access_token` index
`payload["jti"]` on tokens that need not carry that claim. -/
structure Payload where
  sub : String
  type : String
  exp : Int
  iat : Int := 0
  jti : Option Nat := none
deriving DecidableEq

/-- A token string as seen by `jose.jwt`: either a well-formed JWT carrying a
payload and the key it was signed with (HS256 signature validity is exactly
agreement of the signing and verifying keys), or a string that fails JWT
parsing altogether. -/
inductive Token where
  | jwt (payload : Payload) (key : String)
  | malformed (s : String)
deriving DecidableEq

/-- Model of `jose.jwt.decode(token, key, algorithms=[...])` with expiry
verification: `JWTError` (signature mismatch, unparsable input, or
`ExpiredSignatureError` when `exp < now`) is `none`. -/
def jwt_decode (t : Token) (key : String) (now : Int) : Option Payload :=
  match t with
  | .malformed _ => none
  | .jwt p k =>
    if k = key then
      if p.exp < now then none else some p
    else none

/-- Model of `jose.jwt.decode(..., options={"verify_exp": False})`: as
`jwt_decode` but the expiry claim is not checked. -/
def jwt_decode_noexp (t : Token) (key : String) : Option Payload :=
  match t with
  | .malformed _ => none
  | .jwt p k => if k = key then some p else none

/-- Ledger record of `_refresh_token_store` (token_manager.py):
`{"user_id": ..., "revoked": False}`. -/
structure RefreshRecord where
  user_id : String
  revoked : Bool
deriving DecidableEq

/-- Mutable state of a TokenManager instance: the `jti` blacklist and the
refresh-token ledger. `next_jti` models `uuid4` freshness: every generated
token id is the current counter value, and all previously existing ids are
smaller. -/
structure TMState where
  _blacklisted_tokens : List Nat
  _refresh_token_store : List (Nat × RefreshRecord)
  next_jti : Nat
deriving DecidableEq

/-- TokenManager.create_access_token (token_manager.py): payload
`{sub, type:"access", exp: now + lifetime, iat: now, jti: fresh}` signed with
the configured secret. `additional_claims` is not passed at any call site
modelled here (`create_token_pair` omits it), so it is left out. -/
def create_access_token (config : TokenConfig) (s : TMState) (user_id : String)
    (now : Int) : Token × TMState :=
  (Token.jwt
    { sub := user_id, type := "access", exp := now + config.ACCESS_TOKEN_LIFETIME,
      iat := now, jti := some s.next_jti }
    config.SECRET_KEY,
   { s with next_jti := s.next_jti + 1 })

/-- TokenManager.create_refresh_token (token_manager.py): payload
`{sub, type:"refresh", exp: now + lifetime, iat: now, jti: fresh}` signed with
the configured secret; stores `{user_id, revoked: False}` in
`_refresh_token_store` under the new `jti`. -/
def create_refresh_token (config : TokenConfig) (s : TMState) (user_id : String)
    (now : Int) : Token × TMState :=
  (Token.jwt
    { sub := user_id, type := "refresh", exp := now + config.REFRESH_TOKEN_LIFETIME,
      iat := now, jti := some s.next_jti }
    config.SECRET_KEY,
   { s with
      _refresh_token_store :=
        dict_set s._refresh_token_store s.next_jti
          { user_id := user_id, revoked := false },
      next_jti := s.next_jti + 1 })

/-- Return shape of TokenManager.create_token_pair (token_manager.py). -/
structure TokenPair where
  access_token : Token
  refresh_token : Token
  token_type : String
  expires_in : Int
deriving DecidableEq

/-- TokenManager.create_token_pair (token_manager.py): an access token, a
refresh token, `token_type: "Bearer"`, and `expires_in` equal to the access
lifetime in seconds. -/
def create_token_pair (config : TokenConfig) (s : TMState) (user_id : String)
    (now : Int) : TokenPair × TMState :=
  let (access, s1) := create_access_token config s user_id now
  let (refresh, s2) := create_refresh_token config s1 user_id now
  ({ access_token := access, refresh_token := refresh, token_type := "Bearer",
     expires_in := config.ACCESS_TOKEN_LIFETIME }, s2)

/-- TokenManager.verify_access_token (token_manager.py): decode (catching
`JWTError` as `None`), reject a non-"access" type, reject a blacklisted
`jti`, otherwise return the payload. `payload["jti"]` is `[]` indexing: on a
decodable payload without a `jti` claim the uncaught `KeyError` is
`Except.error ()`; `Except.ok none` is the function's own `return None`. -/
def verify_access_token (config : TokenConfig) (s : TMState) (token : Token)
    (now : Int) : Except Unit (Option Payload) :=
  match jwt_decode token config.SECRET_KEY now with
  | none => .ok none
  | some payload =>
    if payload.type ≠ "access" then .ok none
    else
      match payload.jti with
      | none => .error ()
      | some j =>
        if j ∈ s._blacklisted_tokens then .ok none
        else .ok (some payload)

/-- TokenManager.refresh_tokens (token_manager.py): decode (catching
`JWTError` as `None`), reject a non-"refresh" type, look the `jti` up in the
ledger (`payload.get("jti")`, then `_refresh_token_store.get`), reject a
missing or revoked record; then, when `REFRESH_TOKEN_ROTATION` is enabled,
mark the consumed record revoked, and issue a fresh pair for the payload's
subject. -/
def refresh_tokens (config : TokenConfig) (s : TMState) (refresh_token : Token)
    (now : Int) : Option (TokenPair × TMState) :=
  match jwt_decode refresh_token config.SECRET_KEY now with
  | none => none
  | some payload =>
    if payload.type ≠ "refresh" then none
    else
      match payload.jti.bind
          (fun j => (alookup s._refresh_token_store j).map (fun r => (j, r))) with
      | none => none
      | some (token_id, stored) =>
        if stored.revoked then none
        else
          let s1 :=
            if config.REFRESH_TOKEN_ROTATION then
              { s with
                  _refresh_token_store :=
                    dict_set s._refresh_token_store token_id
                      { stored with revoked := true } }
            else s
          some (create_token_pair config s1 payload.sub now)

/-- TokenManager.blacklist_token (token_manager.py): decode with
`verify_exp: False` (so an expired token is still decodable); `JWTError` is
caught (`pass`), leaving the state unchanged; on success `payload["jti"]` is
added to the blacklist — `[]` indexing, so a decodable payload without a
`jti` claim raises an uncaught `KeyError` (`Except.error ()`). -/
def blacklist_token (config : TokenConfig) (s : TMState) (token : Token) :
    Except Unit TMState :=
  match jwt_decode_noexp token config.SECRET_KEY with
  | none => .ok s
  | some payload =>
    match payload.jti with
    | none => .error ()
    | some j => .ok { s with _blacklisted_tokens := s._blacklisted_tokens ++ [j] }

/-- Per-provider configuration as used by OAuthService (oauth_service.py). -/
structure ProviderConfig where
  client_id : String
  client_secret : String := ""
  redirect_uri : String
  auth_url : String
  scopes : List String
deriving DecidableEq

/-- Record stored in `_state_store` by OAuthService.get_authorization_url:
`{"provider": provider}`. The record carries no creation time. -/
structure StateRecord where
  provider : String
deriving DecidableEq

/-- Model of `urllib.parse.urlencode`: join `key=value` pairs with `&`.
Percent-encoding of the values is not modelled; the values are treated as
opaque strings. -/
def urlencode : List (String × String) → String
  | [] => ""
  | [p] => p.1 ++ "=" ++ p.2
  | p :: rest => p.1 ++ "=" ++ p.2 ++ "&" ++ urlencode rest

/-- Query parameters built by OAuthService.get_authorization_url
(oauth_service.py): client id, redirect URI, response type "code",
space-joined scopes, and the state value, in that order. -/
def authorization_url_params (config : ProviderConfig) (state : String) :
    List (String × String) :=
  [("client_id", config.client_id),
   ("redirect_uri", config.redirect_uri),
   ("response_type", "code"),
   ("scope", String.intercalate " " config.scopes),
   ("state", state)]

/-- OAuthService.get_authorization_url (oauth_service.py). `configs` is the
service's provider map and `store` its `_state_store`. An unknown provider
raises `ValueError` (`Except.error ()`). The Python `state: str = None`
parameter is `Option String`; `if not state:` is true for `None` and for the
empty string, in which case a fresh random token (`secrets.token_urlsafe(32)`,
passed in as `generated`) is stored under `{"provider": provider}` — a
caller-supplied non-empty state is used as-is and never stored. Returns the
authorization URL together with the updated state store. -/
def get_authorization_url (configs : List (String × ProviderConfig))
    (store : List (String × StateRecord)) (provider : String)
    (state : Option String) (generated : String) :
    Except Unit (String × List (String × StateRecord)) :=
  match alookup configs provider with
  | none => .error ()
  | some config =>
    let st_store :
        String × List (String × StateRecord) :=
      if state = none ∨ state = some "" then
        (generated, dict_set store generated { provider := provider })
      else
        ((state.getD ""), store)
    .ok (config.auth_url ++ "?" ++ urlencode (authorization_url_params config st_store.1),
         st_store.2)

/-- Failure modes of the state-validation prefix of
OAuthService.handle_callback: `ValueError("Invalid state parameter")` and
`ValueError("Provider mismatch")`. -/
inductive CallbackError where
  | invalidState
  | providerMismatch
deriving DecidableEq

/-- State-validation prefix of OAuthService.handle_callback
(oauth_service.py, the steps before any network call): reject a state absent
from `_state_store`, pop the stored record, then reject a record whose stored
provider differs from the callback's provider. On success, return the popped
record and the store with the record removed. `now` is the clock instant of
the call; the source consults no clock here — the stored record has no
creation time and no expiry check exists — so the result never depends on
`now`. The remaining steps of handle_callback (code exchange, user-info
fetch, user resolution) are network and collaborator calls past this
prefix. -/
def handle_callback_consume_state (now : Int)
    (store : List (String × StateRecord)) (provider : String) (state : String) :
    Except CallbackError (StateRecord × List (String × StateRecord)) :=
  let _ := now
  match alookup store state with
  | none => .error .invalidState
  | some stored_state =>
    let store1 := dict_del store state
    if stored_state.provider ≠ provider then .error .providerMismatch
    else .ok (stored_state, store1)

/-- Default token configuration, as in `TokenConfig` of token_manager.py. -/
def tokenConfigD : TokenConfig := {}

/-- A freshly constructed TokenManager's state: empty blacklist, empty
refresh ledger (`__init__` of token_manager.py). -/
def tmState0 : TMState :=
  { _blacklisted_tokens := [], _refresh_token_store := [], next_jti := 0 }

/-- A sample provider-configuration map for concrete instantiations. -/
def githubConfig : ProviderConfig :=
  { client_id := "gh-id", redirect_uri := "https://app.example/cb",
    auth_url := "https://github.example/authorize", scopes := ["user"] }

/-- A second sample provider for mismatch scenarios. -/
def googleConfig : ProviderConfig :=
  { client_id := "gg-id", redirect_uri := "https://app.example/cb",
    auth_url := "https://google.example/authorize", scopes := ["openid"] }

/-- Sample `configs` dictionary of an OAuthService instance. -/
def oauthConfigsTest : List (String × ProviderConfig) :=
  [("github", githubConfig), ("google", googleConfig)]

/-- C1: with rotation enabled (the default), a freshly issued refresh token
rotates successfully exactly once: the first `refresh_tokens` call succeeds
and leaves the consumed ledger record marked revoked, and every later
`refresh_tokens` call with the same token returns `None`. `hfresh` says the
first rotation happens within the refresh token's 7-day lifetime. -/
theorem refresh_rotation_single_use
    (config : TokenConfig) (s : TMState) (user : String) (t1 t2 : Int)
    (hrot : config.REFRESH_TOKEN_ROTATION = true)
    (hfresh : ¬ t1 + config.REFRESH_TOKEN_LIFETIME < t2) :
    ∃ pair s2,
      refresh_tokens config (create_refresh_token config s user t1).2
        (create_refresh_token config s user t1).1 t2 = some (pair, s2) ∧
      alookup s2._refresh_token_store s.next_jti
        = some { user_id := user, revoked := true } ∧
      ∀ t3, refresh_tokens config s2 (create_refresh_token config s user t1).1 t3
        = none := by
  have hself := alookup_dict_set_self s._refresh_token_store s.next_jti
    ({ user_id := user, revoked := false } : RefreshRecord)
  simp only [create_refresh_token, refresh_tokens, jwt_decode, if_neg hfresh,
    hrot, create_token_pair, create_access_token, if_true, eq_self_iff_true,
    Option.some_bind, ne_eq, not_true, reduceIte]
  rw [hself]
  simp only [Option.map_some', Bool.false_eq_true, if_false]
  refine ⟨_, _, rfl, ?_, ?_⟩
  · rw [alookup_dict_set_ne _ _ _ _ (by omega), alookup_dict_set_self]
  · intro t3
    by_cases hexp : t1 + config.REFRESH_TOKEN_LIFETIME < t3
    · simp [jwt_decode, refresh_tokens, if_pos hexp]
    · simp only [refresh_tokens, jwt_decode, if_neg hexp, if_true,
        eq_self_iff_true, ne_eq, not_true, reduceIte, Option.some_bind]
      rw [alookup_dict_set_ne _ _ _ _ (by omega), alookup_dict_set_self]
      simp

/-- Witness for C1 at a concrete instance: default configuration, fresh
manager state, subject "alice", issuance and both rotations at time 0. -/
theorem refresh_rotation_single_use_witness :
    ∃ pair s2,
      refresh_tokens tokenConfigD (create_refresh_token tokenConfigD tmState0 "alice" 0).2
        (create_refresh_token tokenConfigD tmState0 "alice" 0).1 0 = some (pair, s2) ∧
      alookup s2._refresh_token_store tmState0.next_jti
        = some { user_id := "alice", revoked := true } ∧
      ∀ t3, refresh_tokens tokenConfigD s2
        (create_refresh_token tokenConfigD tmState0 "alice" 0).1 t3 = none :=
  refresh_rotation_single_use tokenConfigD tmState0 "alice" 0 0 rfl (by decide)

/-- C4: `create_token_pair(subject)` immediately followed by
`verify_access_token` on the returned access token succeeds with claims
whose subject is the input subject and whose type discriminator is
"access". `hlife` is the (default 3600 s) nonnegative access lifetime;
`hwf` is the `uuid4`-freshness invariant: every blacklisted id was generated
before the counter, so a fresh token id is never already blacklisted. -/
theorem round_trip_issuance
    (config : TokenConfig) (s : TMState) (user : String) (now : Int)
    (hlife : 0 ≤ config.ACCESS_TOKEN_LIFETIME)
    (hwf : ∀ j ∈ s._blacklisted_tokens, j < s.next_jti) :
    ∃ p, verify_access_token config (create_token_pair config s user now).2
        (create_token_pair config s user now).1.access_token now = .ok (some p) ∧
      p.sub = user ∧ p.type = "access" := by
  have hexp : ¬ now + config.ACCESS_TOKEN_LIFETIME < now := by omega
  have hbl : s.next_jti ∉ s._blacklisted_tokens := fun h => absurd (hwf _ h) (by omega)
  simp only [create_token_pair, create_access_token, create_refresh_token,
    verify_access_token, jwt_decode, if_neg hexp, if_true, eq_self_iff_true,
    ne_eq, not_true, reduceIte, if_neg hbl]
  exact ⟨_, rfl, rfl, rfl⟩

/-- Witness for C4 at a concrete instance: default configuration, fresh
manager state, subject "bob", time 0. -/
theorem round_trip_issuance_witness :
    ∃ p, verify_access_token tokenConfigD
        (create_token_pair tokenConfigD tmState0 "bob" 0).2
        (create_token_pair tokenConfigD tmState0 "bob" 0).1.access_token 0
        = .ok (some p) ∧
      p.sub = "bob" ∧ p.type = "access" :=
  round_trip_issuance tokenConfigD tmState0 "bob" 0 (by decide) (by simp [tmState0])

/-- C5: for a token signed with the manager's secret, of type "access" and
carrying a `jti`, `blacklist_token` succeeds, puts that `jti` in the
blacklist, and afterwards `verify_access_token` returns `None` at every
instant — in particular also at instants where the token's expiry has not
passed, even though its signature is valid. -/
theorem blacklist_effect
    (config : TokenConfig) (s : TMState) (p : Payload) (j : Nat)
    (hjti : p.jti = some j) (htype : p.type = "access") :
    ∃ s2, blacklist_token config s (Token.jwt p config.SECRET_KEY) = .ok s2 ∧
      j ∈ s2._blacklisted_tokens ∧
      ∀ t, verify_access_token config s2 (Token.jwt p config.SECRET_KEY) t
        = .ok none := by
  refine ⟨{ s with _blacklisted_tokens := s._blacklisted_tokens ++ [j] }, ?_, ?_, ?_⟩
  · simp [blacklist_token, jwt_decode_noexp, hjti]
  · simp
  · intro t
    by_cases hexp : p.exp < t
    · simp [verify_access_token, jwt_decode, if_pos hexp]
    · simp [verify_access_token, jwt_decode, if_neg hexp, htype, hjti]

/-- Witness for C5 at a concrete instance: a freshly shaped access token
with `jti` 3, expiring at time 100, blacklisted in the fresh manager state
and then verified. -/
theorem blacklist_effect_witness :
    ∃ s2, blacklist_token tokenConfigD tmState0
        (Token.jwt
          { sub := "carol", type := "access", exp := 100, iat := 0,
            jti := some 3 } tokenConfigD.SECRET_KEY) = .ok s2 ∧
      3 ∈ s2._blacklisted_tokens ∧
      ∀ t, verify_access_token tokenConfigD s2
        (Token.jwt
          { sub := "carol", type := "access", exp := 100, iat := 0,
            jti := some 3 } tokenConfigD.SECRET_KEY) t = .ok none :=
  blacklist_effect tokenConfigD tmState0 _ 3 rfl rfl

/-- C9, counterexample: `blacklist_token` does not return normally on every
input. A token signed with the configured secret whose payload carries no
`jti` claim decodes successfully, and then `payload["jti"]` raises an
uncaught `KeyError` (the `except` clause catches only `JWTError`):
the call is `Except.error`, not a normal return. -/
theorem blacklist_token_raises_on_missing_jti :
    blacklist_token tokenConfigD tmState0
      (Token.jwt { sub := "u", type := "access", exp := 0, iat := 0, jti := none }
        tokenConfigD.SECRET_KEY) = .error () := rfl

/-- C9, amended: `blacklist_token` returns normally on every input that is
malformed, signed with a different key, or decodable with a `jti` claim
present; in the latter case the `jti` is added to the blacklist with no
expiry check at all (decode runs with `verify_exp: False`), so expired
tokens are blacklisted too. A decodable token without a `jti` claim is the
one input on which the call raises. -/
theorem blacklist_token_total_amended
    (config : TokenConfig) (s : TMState) (t : Token)
    (h : ∀ p k, t = Token.jwt p k → k = config.SECRET_KEY → p.jti.isSome) :
    ∃ s2, blacklist_token config s t = .ok s2 ∧
      ∀ p j, t = Token.jwt p config.SECRET_KEY → p.jti = some j →
        j ∈ s2._blacklisted_tokens := by
  cases t with
  | malformed str =>
    exact ⟨s, rfl, by intro p j hh; cases hh⟩
  | jwt p k =>
    by_cases hk : k = config.SECRET_KEY
    · subst hk
      have hsome := h p _ rfl rfl
      cases hj : p.jti with
      | none => rw [hj] at hsome; simp at hsome
      | some j =>
        refine ⟨{ s with _blacklisted_tokens := s._blacklisted_tokens ++ [j] },
          by simp [blacklist_token, jwt_decode_noexp, hj], ?_⟩
        intro p' j' heq hj'
        cases heq
        rw [hj] at hj'
        cases hj'
        simp
    · refine ⟨s, by simp [blacklist_token, jwt_decode_noexp, hk], ?_⟩
      intro p' j' heq hj'
      cases heq
      exact absurd rfl hk

/-- Witness for C9's amended theorem: an already-expired token
(`exp = -5`) carrying `jti` 7 is blacklisted normally, and 7 lands in the
blacklist. -/
theorem blacklist_token_total_amended_witness :
    ∃ s2, blacklist_token tokenConfigD tmState0
        (Token.jwt
          { sub := "u", type := "access", exp := -5, iat := -9,
            jti := some 7 } tokenConfigD.SECRET_KEY) = .ok s2 ∧
      ∀ p j, Token.jwt
          { sub := "u", type := "access", exp := -5, iat := -9,
            jti := some 7 } tokenConfigD.SECRET_KEY
          = Token.jwt p tokenConfigD.SECRET_KEY → p.jti = some j →
        j ∈ s2._blacklisted_tokens :=
  blacklist_token_total_amended tokenConfigD tmState0 _
    (by intro p k hh _; cases hh; rfl)

/-- An entry of the parameter list appears as a `key=value` run inside the
`urlencode` output. -/
theorem urlencode_mem (ps : List (String × String)) (k v : String)
    (h : (k, v) ∈ ps) :
    ∃ pre post, urlencode ps = pre ++ (k ++ "=" ++ v) ++ post := by
  induction ps with
  | nil => cases h
  | cons p rest ih =>
    cases h with
    | head =>
      cases rest with
      | nil => exact ⟨"", "", by simp [urlencode]⟩
      | cons q qs =>
        exact ⟨"", "&" ++ urlencode (q :: qs), by simp [urlencode, String.append_assoc]⟩
    | tail _ hmem =>
      obtain ⟨pre, post, hpp⟩ := ih hmem
      cases rest with
      | nil => cases hmem
      | cons q qs =>
        exact ⟨p.1 ++ "=" ++ p.2 ++ "&" ++ pre, post, by
          simp [urlencode, hpp, String.append_assoc]⟩

/-- C2: a state generated and stored by `get_authorization_url` is consumed
successfully by the first `handle_callback` state check presenting it with
the matching provider; that consume deletes the store record (the token is
absent afterwards), and every subsequent consume of the same token — at any
time, for any provider — is rejected as an invalid state. -/
theorem state_single_use
    (configs : List (String × ProviderConfig)) (store : List (String × StateRecord))
    (provider gen : String) (config : ProviderConfig)
    (hc : alookup configs provider = some config) :
    ∃ url,
      get_authorization_url configs store provider none gen
        = .ok (url, dict_set store gen { provider := provider }) ∧
      (∀ t1, handle_callback_consume_state t1
          (dict_set store gen { provider := provider }) provider gen
        = .ok ({ provider := provider },
            dict_del (dict_set store gen { provider := provider }) gen)) ∧
      alookup (dict_del (dict_set store gen { provider := provider }) gen) gen
        = none ∧
      ∀ t2 q, handle_callback_consume_state t2
          (dict_del (dict_set store gen { provider := provider }) gen) q gen
        = .error .invalidState := by
  refine ⟨config.auth_url ++ "?" ++ urlencode (authorization_url_params config gen),
    ?_, ?_, ?_, ?_⟩
  · simp [get_authorization_url, hc]
  · intro t1
    simp [handle_callback_consume_state, alookup_dict_set_self]
  · exact alookup_dict_del_self _ _
  · intro t2 q
    simp [handle_callback_consume_state, alookup_dict_del_self]

/-- Witness for C2 at a concrete instance: the "github" provider, an empty
initial state store, generated token "G", consumes attempted at times 0
and 5. -/
theorem state_single_use_witness :
    ∃ url,
      get_authorization_url oauthConfigsTest [] "github" none "G"
        = .ok (url, dict_set ([] : List (String × StateRecord)) "G" { provider := "github" }) ∧
      (∀ t1, handle_callback_consume_state t1
          (dict_set ([] : List (String × StateRecord)) "G" { provider := "github" }) "github" "G"
        = .ok ({ provider := "github" },
            dict_del (dict_set ([] : List (String × StateRecord)) "G" { provider := "github" }) "G")) ∧
      alookup (dict_del (dict_set ([] : List (String × StateRecord)) "G" { provider := "github" }) "G") "G"
        = none ∧
      ∀ t2 q, handle_callback_consume_state t2
          (dict_del (dict_set ([] : List (String × StateRecord)) "G" { provider := "github" }) "G") q "G"
        = .error .invalidState :=
  state_single_use oauthConfigsTest [] "github" "G" githubConfig rfl

/-- C3, counterexample: the claim says a state created at time T and first
consumed after the validity window (T+11 minutes with a 10-minute window)
is rejected. In the code the stored record `{"provider": provider}` carries
no creation time and `handle_callback` checks only membership, so the
consume at T+660 seconds (with T = 0) succeeds instead of being
rejected. -/
theorem state_expiry_cex :
    (get_authorization_url oauthConfigsTest [] "github" none "S").map
      (fun r => handle_callback_consume_state 660 r.2 "github" "S")
      = .ok (.ok ({ provider := "github" }, [])) := rfl

/-- C3, amended: the state store applies no validity window at all. A state
still present in the store with the matching provider is consumed
successfully at every instant, no matter how much time has passed since its
creation; states are invalidated only by consumption, never by the
clock. -/
theorem state_consume_ignores_clock
    (store : List (String × StateRecord)) (provider state : String)
    (rec : StateRecord) (hs : alookup store state = some rec)
    (hp : rec.provider = provider) :
    ∀ now, handle_callback_consume_state now store provider state
      = .ok (rec, dict_del store state) := by
  intro now
  simp [handle_callback_consume_state, hs, hp]

/-- Witness for C3's amended theorem: a stored "github" state is consumed
successfully at time 660 (11 minutes after a creation at time 0). -/
theorem state_consume_ignores_clock_witness :
    handle_callback_consume_state 660
        [("S", { provider := "github" })] "github" "S"
      = .ok ({ provider := "github" },
          dict_del [("S", { provider := "github" })] "S") :=
  state_consume_ignores_clock [("S", { provider := "github" })] "github" "S"
    { provider := "github" } rfl rfl 660

/-- C6: a state created for provider `p1` and presented to the
`handle_callback` state check with a different provider `p2` fails with
`ValueError("Provider mismatch")`: the consumed record's stored provider is
compared against the callback's provider. -/
theorem provider_mismatch_rejection
    (configs : List (String × ProviderConfig)) (store : List (String × StateRecord))
    (p1 p2 gen : String) (config : ProviderConfig)
    (hc : alookup configs p1 = some config) (hne : p2 ≠ p1) :
    ∃ url,
      get_authorization_url configs store p1 none gen
        = .ok (url, dict_set store gen { provider := p1 }) ∧
      ∀ t, handle_callback_consume_state t (dict_set store gen { provider := p1 })
        p2 gen = .error .providerMismatch := by
  refine ⟨config.auth_url ++ "?" ++ urlencode (authorization_url_params config gen),
    ?_, ?_⟩
  · simp [get_authorization_url, hc]
  · intro t
    simp [handle_callback_consume_state, alookup_dict_set_self, Ne.symm hne]

/-- Witness for C6 at a concrete instance: a state created for "google" and
presented with provider "github" at time 0. -/
theorem provider_mismatch_rejection_witness :
    ∃ url,
      get_authorization_url oauthConfigsTest [] "google" none "S2"
        = .ok (url, dict_set ([] : List (String × StateRecord)) "S2" { provider := "google" }) ∧
      ∀ t, handle_callback_consume_state t (dict_set ([] : List (String × StateRecord)) "S2" { provider := "google" })
        "github" "S2" = .error .providerMismatch :=
  provider_mismatch_rejection oauthConfigsTest [] "google" "github" "S2"
    googleConfig rfl (by decide)

/-- C10: when the caller supplies its own non-empty `state` value that is
not already in the store, `get_authorization_url` embeds it in the returned
authorization URL (`state=<value>` appears in the query string) but leaves
the state store unchanged, so every later `handle_callback` presenting that
state — at any time, for any provider — is rejected as an invalid state:
the login can never complete. -/
theorem caller_state_never_stored
    (configs : List (String × ProviderConfig)) (store : List (String × StateRecord))
    (provider st gen : String) (config : ProviderConfig)
    (hc : alookup configs provider = some config)
    (hne : st ≠ "") (habs : alookup store st = none) :
    ∃ url,
      get_authorization_url configs store provider (some st) gen = .ok (url, store) ∧
      (∃ pre post, url = pre ++ ("state=" ++ st) ++ post) ∧
      ∀ t q, handle_callback_consume_state t store q st = .error .invalidState := by
  refine ⟨config.auth_url ++ "?" ++ urlencode (authorization_url_params config st),
    ?_, ?_, ?_⟩
  · simp [get_authorization_url, hc, hne]
  · obtain ⟨pre, post, hpp⟩ :=
      urlencode_mem (authorization_url_params config st) "state" st
        (by simp [authorization_url_params])
    rw [show ("state" : String) ++ "=" = "state=" from rfl] at hpp
    exact ⟨config.auth_url ++ "?" ++ pre, post, by
      rw [hpp]; simp [String.append_assoc]⟩
  · intro t q
    simp [handle_callback_consume_state, habs]

/-- Witness for C10 at a concrete instance: caller-supplied state "EVIL" for
the "github" provider with an empty store; consumes attempted at time 0. -/
theorem caller_state_never_stored_witness :
    ∃ url,
      get_authorization_url oauthConfigsTest [] "github" (some "EVIL") "G2"
        = .ok (url, []) ∧
      (∃ pre post, url = pre ++ ("state=" ++ "EVIL") ++ post) ∧
      ∀ t q, handle_callback_consume_state t [] q "EVIL" = .error .invalidState :=
  caller_state_never_stored oauthConfigsTest [] "github" "EVIL" "G2"
    githubConfig rfl (by decide) rfl

/-- The WeChat-shaped user-info payload of the normalization claim:
`{openid:"abc", nickname:"小明", headimgurl:"http://x"}`. -/
def wechatUserInfoSample : List (String × Json) :=
  [("openid", .str "abc"), ("nickname", .str "小明"),
   ("headimgurl", .str "http://x")]

/-- A WeChat token-endpoint response used to drive the callback wrapper. -/
def wechatTokenSample : List (String × Json) :=
  [("access_token", .str "AT"), ("openid", .str "abc"), ("expires_in", .num 7200)]

/-- C7, counterexample: feeding the WeChat-shaped payload
`{openid:"abc", nickname:"小明", headimgurl:"http://x"}` through the WeChat
adapter does not produce the canonical `ExternalIdentity` field names the
claim requires: the result has no `subjectId`, `displayName` or `avatarURL`
keys at all (and the callback wrapper tags the provider under `provider`,
not `providerId`). -/
theorem canonical_identity_cex :
    (wechat_get_user_info wechatUserInfoSample).map
      (fun r => (jget r "subjectId", jget r "displayName", jget r "avatarURL"))
      = some (none, none, none) ∧
    ((wechat_get_user_info wechatUserInfoSample).bind
      (fun r => wechat_handle_callback_result wechatTokenSample r)).map
      (fun r => jget r "providerId") = some none :=
  ⟨rfl, rfl⟩

/-- C7, amended: the WeChat adapter carries the user info through under the
provider's own field names — `openid:"abc"`, `nickname:"小明"`,
`headimgurl:"http://x"` — and the callback result tags it with
`provider:"wechat"`, nesting the user info unmapped under `user_info`; no
canonical `subjectId`/`displayName`/`avatarURL` renaming happens. -/
theorem wechat_identity_field_names :
    (wechat_get_user_info wechatUserInfoSample).map
      (fun r => (jget r "openid", jget r "nickname", jget r "headimgurl"))
      = some (some (.str "abc"), some (.str "小明"), some (.str "http://x")) ∧
    ((wechat_get_user_info wechatUserInfoSample).bind
      (fun r => wechat_handle_callback_result wechatTokenSample r)).map
      (fun r => (jget r "provider", jget r "user_info"))
      = some (some (.str "wechat"),
          some (.obj (wechat_user_info_fields wechatUserInfoSample))) :=
  ⟨rfl, rfl⟩

/-- A WeChat token-endpoint response reporting a token lifetime of 0. -/
def wechatTokenZeroExpiry : List (String × Json) :=
  [("access_token", .str "AT"), ("openid", .str "o"), ("expires_in", .num 0)]

/-- C8, counterexample: the claim says a reported `expires_in` of 0 is
replaced by the provider-family default (7200 for WeChat), never carried
as 0. In the code the default applies only when the key is missing
(`token_data.get("expires_in", 7200)`): on a response reporting
`expires_in: 0` the WeChat adapter result carries 0, and 0 ≠ 7200. -/
theorem provider_lifetime_default_cex :
    (wechat_handle_callback_result wechatTokenZeroExpiry []).map
      (fun r => jget r "expires_in") = some (some (.num 0)) ∧
    (0 : Int) ≠ 7200 :=
  ⟨rfl, by decide⟩

/-- C8, amended: the WeChat adapter substitutes the 7200-second default only
when the provider's response has no `expires_in` key, passing any present
value — including 0 — through unchanged; the QQ adapter applies no default
at all, carrying a missing `expires_in` as `None`
(`token_data.get("expires_in")`). -/
theorem provider_lifetime_default_amended
    (td od ui : List (String × Json))
    (hwo : (jget td "openid").isSome = true)
    (hwa : (jget td "access_token").isSome = true)
    (hqo : (jget od "openid").isSome = true)
    (hqc : (jget od "client_id").isSome = true) :
    (wechat_handle_callback_result td ui).map (fun r => jget r "expires_in")
      = some (some ((jget td "expires_in").getD (.num 7200))) ∧
    (qq_handle_callback_result td od ui).map (fun r => jget r "expires_in")
      = some (some ((jget td "expires_in").getD .null)) := by
  obtain ⟨o, ho⟩ := Option.isSome_iff_exists.mp hwo
  obtain ⟨a, ha⟩ := Option.isSome_iff_exists.mp hwa
  obtain ⟨qo, hqo2⟩ := Option.isSome_iff_exists.mp hqo
  obtain ⟨qc, hqc2⟩ := Option.isSome_iff_exists.mp hqc
  simp only [jget] at ho ha hqo2 hqc2
  constructor
  · simp [wechat_handle_callback_result, jget, ho, ha, alookup]
  · simp [qq_handle_callback_result, jget, ho, ha, hqo2, hqc2, alookup]

/-- Witness for C8's amended theorem: responses with no `expires_in` key —
the WeChat result carries the 7200 default, the QQ result carries `None`. -/
theorem provider_lifetime_default_amended_witness :
    (wechat_handle_callback_result [("openid", .str "o"), ("access_token", .str "a")]
      []).map (fun r => jget r "expires_in")
      = some (some ((jget [("openid", .str "o"), ("access_token", .str "a")]
          "expires_in").getD (.num 7200))) ∧
    (qq_handle_callback_result [("openid", .str "o"), ("access_token", .str "a")]
      [("openid", .str "q"), ("client_id", .str "c")] []).map
      (fun r => jget r "expires_in")
      = some (some ((jget [("openid", .str "o"), ("access_token", .str "a")]
          "expires_in").getD .null)) :=
  provider_lifetime_default_amended
    [("openid", .str "o"), ("access_token", .str "a")]
    [("openid", .str "q"), ("client_id", .str "c")] [] rfl rfl rfl rfl

end PDNS
